import Mathlib

/-!
Verification of the Eureka repository: a Go bit-flag demo and a JavaScript
OneTable/DynamoDB tutorial script with its declarative schema.

Part 1 embeds the Go file (package main, `type Flags uint` and its helper
functions).  Go's `uint` is modelled as `Nat`; none of the flag operations
can overflow (AND, OR, AND-NOT only clear or keep bits of their inputs),
and the one left shift in `main` is reduced modulo 2^64 explicitly.
Go's bit-clear operator `x &^ y` (AND-NOT) is `Nat.ldiff x y`: the bits of
`x` with the bits of `y` removed, which agrees with the fixed-width Go
semantics on values below the width.

Part 2 embeds the tutorial script `dbaccessSample.GO` (JavaScript despite
the extension): the control flow of its `main` (start, try test, catch and
log, stop), the batch-creation loop inside `test`, and the declarative
OneTable schema (indexes and the Account/User/Product/Invoice models) as
literal Lean data.
-/

namespace BitFlags

/-- Go: `type Flags uint`. -/
abbrev Flags := Nat

/-- Go: `FlagUp Flags = 1 << iota` with iota = 0. -/
def FlagUp : Flags := 1 <<< 0

/-- Go: iota = 1. -/
def FlagBroadcast : Flags := 1 <<< 1

/-- Go: iota = 2. -/
def FlagLoopback : Flags := 1 <<< 2

/-- Go: iota = 3. -/
def FlagPointToPoint : Flags := 1 <<< 3

/-- Go: iota = 4. -/
def FlagMulticast : Flags := 1 <<< 4

/-- Go: `func IsUp(v Flags) bool { return v&FlagUp == FlagUp }`. -/
def IsUp (v : Flags) : Bool := v &&& FlagUp == FlagUp

/-- Go's AND-NOT operator `x &^ y` (bit clear), used by `TurnDown`. -/
def andNot (x y : Flags) : Flags := Nat.ldiff x y

/-- Go: `func TurnDown(v *Flags) { *v &^= FlagUp }`, modelled as a pure
function returning the updated value. -/
def TurnDown (v : Flags) : Flags := andNot v FlagUp

/-- Go: `func SetBroadcast(v *Flags) { *v |= FlagBroadcast }`, modelled as
a pure function returning the updated value. -/
def SetBroadcast (v : Flags) : Flags := v ||| FlagBroadcast

/-- Go: `func IsCast(v Flags) bool { return v&(FlagBroadcast|FlagMulticast) != 0 }`. -/
def IsCast (v : Flags) : Bool := v &&& (FlagBroadcast ||| FlagMulticast) != 0

/-- Width modulus of Go `uint` (64 bits), for the shift in `main`. -/
def uintMod : Nat := 2 ^ 64

/-- The successive values assigned to `c` in `main` after the flag-helper
calls: with `a = 1` and `b = 10`, the results of `a&b`, `a|b`, `a^b`,
`a<<2` (reduced modulo 2^64 as Go does) and `a>>2`, in program order. -/
def mainCSeq : List Nat :=
  let a : Nat := 1
  let b : Nat := 10
  [a &&& b, a ||| b, a ^^^ b, (a <<< 2) % uintMod, a >>> 2]

end BitFlags

namespace Onetable

/-- A literal attribute value appearing as a `default` in the schema:
a string, a number, or the empty object `{}`. -/
inductive AttrVal where
  | str (s : String)
  | num (n : Nat)
  | emptyObj
  deriving DecidableEq

/-- One field declaration of a schema model.  Each Lean field records the
attribute of the same name in the JavaScript schema object; `validate`
records whether a `validate:` attribute is present (the `Match` object of
patterns is empty in the source, so all referenced patterns are undefined).
The nested `schema` of the `address` field is modelled by the separate
definition `UserAddressSchema`. -/
structure FieldSpec where
  type : String
  required : Bool := false
  unique : Bool := false
  crypt : Bool := false
  generate : Option String := none
  enum : Option (List String) := none
  default : Option AttrVal := none
  value : Option String := none
  validate : Bool := false
  deriving DecidableEq

/-- One index declaration (`indexes:` section of the schema). -/
structure IndexSpec where
  hash : String
  sort : String
  project : Option (List String) := none
  deriving DecidableEq

/-- Schema: `primary: {hash: 'pk', sort: 'sk'}`. -/
def primary : IndexSpec := { hash := "pk", sort := "sk" }

/-- Schema: `gs1: {hash: 'gs1pk', sort: 'gs1sk', project: ['gs1pk', 'gs1sk']}`. -/
def gs1 : IndexSpec :=
  { hash := "gs1pk", sort := "gs1sk", project := some ["gs1pk", "gs1sk"] }

/-- Schema model `Account`, field by field. -/
def AccountModel : List (String × FieldSpec) :=
  [("pk", { type := "String", value := some "account#$\x7bid\x7d" }),
   ("sk", { type := "String", value := some "account#" }),
   ("id", { type := "String", generate := some "ulid", validate := true }),
   ("name", { type := "String", required := true, unique := true, validate := true }),
   ("balance", { type := "Number", default := some (AttrVal.num 0) }),
   ("gs1pk", { type := "String", value := some "account#" }),
   ("gs1sk", { type := "String", value := some "account#$\x7bname\x7d$\x7bid\x7d" })]

/-- The nested schema of the `address` field of the `User` model. -/
def UserAddressSchema : List (String × FieldSpec) :=
  [("street", { type := "String" }),
   ("city", { type := "String" }),
   ("zip", { type := "String" })]

/-- Schema model `User`, field by field. -/
def UserModel : List (String × FieldSpec) :=
  [("pk", { type := "String", value := some "account#$\x7baccountId\x7d" }),
   ("sk", { type := "String", value := some "user#$\x7bemail\x7d" }),
   ("accountId", { type := "String", required := true }),
   ("id", { type := "String", generate := some "ulid", validate := true }),
   ("name", { type := "String", required := true, validate := true }),
   ("email", { type := "String", required := true, validate := true, crypt := true }),
   ("role", { type := "String", default := some (AttrVal.str "user"),
              enum := some ["admin", "user"] }),
   ("address", { type := "Object", default := some AttrVal.emptyObj }),
   ("status", { type := "String", required := true,
                default := some (AttrVal.str "active"),
                enum := some ["active", "inactive"] }),
   ("balance", { type := "Number", default := some (AttrVal.num 0) }),
   ("gs1pk", { type := "String", value := some "user#" }),
   ("gs1sk", { type := "String", value := some "user#$\x7bname\x7d#$\x7bid\x7d" })]

/-- Schema model `Product`, field by field. -/
def ProductModel : List (String × FieldSpec) :=
  [("pk", { type := "String", value := some "product#$\x7bid\x7d" }),
   ("sk", { type := "String", value := some "product#" }),
   ("id", { type := "String", generate := some "ulid", validate := true }),
   ("name", { type := "String", required := true }),
   ("price", { type := "Number", required := true }),
   ("gs1pk", { type := "String", value := some "product#" }),
   ("gs1sk", { type := "String", value := some "product#$\x7bname\x7d#$\x7bid\x7d" })]

/-- Schema model `Invoice`, field by field. -/
def InvoiceModel : List (String × FieldSpec) :=
  [("pk", { type := "String", value := some "account#$\x7baccountId\x7d" }),
   ("sk", { type := "String", value := some "invoice#$\x7bid\x7d" }),
   ("accountId", { type := "String", required := true }),
   ("date", { type := "Date" }),
   ("id", { type := "String", generate := some "ulid" }),
   ("product", { type := "String" }),
   ("count", { type := "Number" }),
   ("total", { type := "Number" }),
   ("gs1pk", { type := "String", value := some "invoice#" }),
   ("gs1sk", { type := "String", value := some "invoice#$\x7bdate\x7d#$\x7bid\x7d" })]

/-- Observable events of the script's process-level control flow. -/
inductive Ev where
  | spawnDb
  | logErr (msg : String)
  | killDb
  deriving DecidableEq

/-- JS `start()`: `dynamodb = DynamoDbLocal.spawn({port: PORT})` (the
subsequent `delay` has no observable effect modelled here). -/
def startEvents : List Ev := [Ev.spawnDb]

/-- JS `stop()`: `process.kill(dynamodb.pid)`, killing the spawned local
dynamodb process. -/
def stopEvents : List Ev := [Ev.killDb]

/-- JS `main()`:
`await start(); try { await test() } catch (err) { console.error(err) } await stop()`.
The opaque body of `test()` is abstracted by its outcome: `ok`, or the
error thrown by whichever of its steps failed.  The trace lists the
process-level events `main` performs for that outcome. -/
def mainTrace (testOutcome : Except String Unit) : List Ev :=
  startEvents ++
    (match testOutcome with
      | Except.ok _ => []
      | Except.error e => [Ev.logErr e]) ++
    stopEvents

/-- The batch-creation loop of `test()`:
`while (i++ < 200) { User.create({name: user-i ...}, {batch}); if (++count >= 25) { await table.batchWrite(batch); batch = {}; count = 0 } }`.
User `user-i` is represented by its number `i`; the accumulating `batch`
object by the list of user numbers it holds; the sequence of
`table.batchWrite` calls by the list of batches submitted.  The first
argument is fuel bounding the iteration count (200 iterations occur, so
fuel 200 is enough); the loop condition `i < 200` on the pre-increment `i`
is kept verbatim. -/
def batchLoop : Nat → Nat → Nat → List Nat → List (List Nat) →
    List (List Nat) × List Nat
  | 0, _, _, batch, writes => (writes, batch)
  | fuel + 1, i, count, batch, writes =>
    if i < 200 then
      let i2 := i + 1
      let batch2 := batch ++ [i2]
      let count2 := count + 1
      if 25 ≤ count2 then
        batchLoop fuel i2 0 [] (writes ++ [batch2])
      else
        batchLoop fuel i2 count2 batch2 writes
    else (writes, batch)

/-- The loop as run by `test()`: `i = 0, count = 0, batch = {}`, no
batchWrite call made yet.  First component: the batches submitted to
`table.batchWrite`, in order; second: the pending batch at loop exit. -/
def batchRun : List (List Nat) × List Nat := batchLoop 200 0 0 [] []

end Onetable

/-! Theorems.  First supporting bit lemmas, then one theorem per claim. -/

namespace BitFlags

lemma testBit_FlagUp (i : Nat) : FlagUp.testBit i = decide (0 = i) := by
  have h : FlagUp = 2 ^ 0 := rfl
  rw [h, Nat.testBit_two_pow]

lemma testBit_FlagBroadcast (i : Nat) :
    FlagBroadcast.testBit i = decide (1 = i) := by
  have h : FlagBroadcast = 2 ^ 1 := rfl
  rw [h, Nat.testBit_two_pow]

lemma testBit_FlagMulticast (i : Nat) :
    FlagMulticast.testBit i = decide (4 = i) := by
  have h : FlagMulticast = 2 ^ 4 := rfl
  rw [h, Nat.testBit_two_pow]

/-- ANDing with a single bit keeps exactly that bit. -/
lemma land_two_pow (v k : Nat) :
    v &&& 2 ^ k = if v.testBit k then 2 ^ k else 0 := by
  apply Nat.eq_of_testBit_eq
  intro i
  rw [Nat.testBit_land, Nat.testBit_two_pow]
  by_cases hk : k = i
  · subst hk
    cases hv : v.testBit k <;> simp [hv]
  · cases hv : v.testBit k <;> simp [hk, Nat.testBit_two_pow, Nat.zero_testBit]

/-- `v &&& 2^k = 2^k` states exactly that bit `k` of `v` is set. -/
lemma land_two_pow_eq_iff (v k : Nat) :
    v &&& 2 ^ k = 2 ^ k ↔ v.testBit k = true := by
  have hpow : (2 : Nat) ^ k ≠ 0 := pow_ne_zero k (by omega)
  rw [land_two_pow]
  cases h : v.testBit k <;> simp [h, Ne.symm hpow]

/-- `v &&& 2^k = 0` states exactly that bit `k` of `v` is clear. -/
lemma land_two_pow_eq_zero_iff (v k : Nat) :
    v &&& 2 ^ k = 0 ↔ v.testBit k = false := by
  have hpow : (2 : Nat) ^ k ≠ 0 := pow_ne_zero k (by omega)
  rw [land_two_pow]
  cases h : v.testBit k <;> simp [h, hpow]

/-- AND distributes over OR, bitwise. -/
lemma land_lor_distrib (v a b : Nat) :
    v &&& (a ||| b) = (v &&& a) ||| (v &&& b) := by
  apply Nat.eq_of_testBit_eq
  intro i
  rw [Nat.testBit_land, Nat.testBit_lor, Nat.testBit_lor, Nat.testBit_land,
    Nat.testBit_land]
  cases v.testBit i <;> simp

/-- An OR is zero exactly when both sides are. -/
lemma lor_eq_zero_iff (a b : Nat) : a ||| b = 0 ↔ a = 0 ∧ b = 0 := by
  constructor
  · intro h
    constructor <;> apply Nat.eq_of_testBit_eq <;> intro i
    · have hb := congrArg (fun n => Nat.testBit n i) h
      simp only [Nat.testBit_lor, Nat.zero_testBit, Bool.or_eq_false_iff] at hb
      simp [hb.1, Nat.zero_testBit]
    · have hb := congrArg (fun n => Nat.testBit n i) h
      simp only [Nat.testBit_lor, Nat.zero_testBit, Bool.or_eq_false_iff] at hb
      simp [hb.2, Nat.zero_testBit]
  · rintro ⟨ha, hb⟩
    simp [ha, hb]

/-- `IsUp` reads bit 0. -/
lemma IsUp_eq_testBit (v : Flags) : IsUp v = v.testBit 0 := by
  unfold IsUp
  have h : FlagUp = 2 ^ 0 := rfl
  rw [h, land_two_pow]
  cases hv : v.testBit 0 <;> simp [hv]

/-- C1 (counterexample): the round trip `(v &^ b) | b == v` does not hold
for every `v`; at `v = 0` and `b = FlagUp` (cleared by `TurnDown`), the
result is `FlagUp`, not `0`. -/
theorem roundtrip_fails_at_zero : ¬ (TurnDown 0 ||| FlagUp = 0) := by
  have h0 : TurnDown 0 = 0 := by
    apply Nat.eq_of_testBit_eq
    intro i
    simp [TurnDown, andNot, Nat.testBit_ldiff, Nat.zero_testBit]
  rw [h0]
  decide

/-- C1 (amended): for every Flags value `v` that has the bit `b` set
(`v &&& b = b`, as with `b = FlagUp` before `TurnDown` clears it),
applying AND-NOT of `b` and then OR of `b` restores the original value. -/
theorem andNot_lor_roundtrip (v b : Flags) (h : v &&& b = b) :
    andNot v b ||| b = v := by
  apply Nat.eq_of_testBit_eq
  intro i
  have hb : (v.testBit i && b.testBit i) = b.testBit i := by
    rw [← Nat.testBit_land, h]
  rw [Nat.testBit_lor]
  simp only [andNot]
  rw [Nat.testBit_ldiff]
  cases hbi : b.testBit i
  · simp
  · rw [hbi] at hb
    have hv : v.testBit i = true := by
      cases hv2 : v.testBit i
      · rw [hv2] at hb
        simp at hb
      · rfl
    simp [hv]

/-- Witness for the amended C1 at `v = 17`, `b = FlagUp`. -/
theorem andNot_lor_roundtrip_at_17 :
    (17 : Flags) &&& FlagUp = FlagUp ∧ andNot 17 FlagUp ||| FlagUp = 17 :=
  ⟨by decide, andNot_lor_roundtrip 17 FlagUp (by decide)⟩

/-- C2: `TurnDown` clears exactly the `FlagUp` bit: afterwards `IsUp` is
false, and every bit other than bit 0 (`FlagUp`) is unchanged. -/
theorem TurnDown_clears_exactly_FlagUp (v : Flags) :
    IsUp (TurnDown v) = false ∧
      ∀ i, i ≠ 0 → (TurnDown v).testBit i = v.testBit i := by
  constructor
  · rw [IsUp_eq_testBit]
    simp only [TurnDown, andNot]
    rw [Nat.testBit_ldiff, testBit_FlagUp]
    simp
  · intro i hi
    simp only [TurnDown, andNot]
    rw [Nat.testBit_ldiff, testBit_FlagUp]
    simp [Ne.symm hi]

/-- Witness for C2 at `v = 17` and bit 4. -/
theorem TurnDown_clears_at_17 :
    IsUp (TurnDown 17) = false ∧
      (TurnDown 17).testBit 4 = (17 : Flags).testBit 4 :=
  ⟨(TurnDown_clears_exactly_FlagUp 17).1,
   (TurnDown_clears_exactly_FlagUp 17).2 4 (by decide)⟩

/-- C3: on a value lacking the `FlagBroadcast` bit, `SetBroadcast` yields
exactly the old value with `FlagBroadcast` ORed in: bit 1 is set
afterwards and every other bit is unchanged. -/
theorem SetBroadcast_sets_exactly (v : Flags) (h : v &&& FlagBroadcast = 0) :
    SetBroadcast v = v ||| FlagBroadcast ∧
      (SetBroadcast v).testBit 1 = true ∧
      ∀ i, i ≠ 1 → (SetBroadcast v).testBit i = v.testBit i := by
  refine ⟨rfl, ?_, ?_⟩
  · simp only [SetBroadcast]
    rw [Nat.testBit_lor, testBit_FlagBroadcast]
    simp
  · intro i hi
    simp only [SetBroadcast]
    rw [Nat.testBit_lor, testBit_FlagBroadcast]
    simp [Ne.symm hi]

/-- Witness for C3 at `v = 17` (which lacks `FlagBroadcast`). -/
theorem SetBroadcast_sets_at_17 :
    (17 : Flags) &&& FlagBroadcast = 0 ∧
      SetBroadcast 17 = 17 ||| FlagBroadcast :=
  ⟨by decide, (SetBroadcast_sets_exactly 17 (by decide)).1⟩

/-- C5: after the flag-helper calls, `main` assigns to `c` exactly the
results of `a&b`, `a|b`, `a^b`, `a<<2`, `a>>2` in that order, and with
`a = 1`, `b = 10` those values are 0, 11, 11, 4, 0. -/
theorem mainCSeq_values :
    mainCSeq = [1 &&& 10, 1 ||| 10, 1 ^^^ 10, (1 <<< 2) % uintMod, 1 >>> 2] ∧
      mainCSeq = [0, 11, 11, 4, 0] :=
  ⟨rfl, by decide⟩

/-- C8: `IsCast v` is true exactly when the `FlagBroadcast` or the
`FlagMulticast` bit of `v` is set; it is false on a value with only
`FlagUp` set, and true on any value with `FlagMulticast` ORed in. -/
theorem IsCast_spec (v : Flags) :
    (IsCast v = true ↔
        (v &&& FlagBroadcast = FlagBroadcast ∨
          v &&& FlagMulticast = FlagMulticast)) ∧
      IsCast FlagUp = false ∧
      IsCast (v ||| FlagMulticast) = true := by
  have key : ∀ w : Flags,
      IsCast w = true ↔ (w.testBit 1 = true ∨ w.testBit 4 = true) := by
    intro w
    simp only [IsCast, bne_iff_ne, ne_eq]
    have h2 : FlagBroadcast = 2 ^ 1 := rfl
    have h4 : FlagMulticast = 2 ^ 4 := rfl
    rw [h2, h4, land_lor_distrib, lor_eq_zero_iff, land_two_pow_eq_zero_iff,
      land_two_pow_eq_zero_iff]
    cases hw1 : w.testBit 1 <;> cases hw4 : w.testBit 4 <;> simp
  refine ⟨?_, by decide, ?_⟩
  · rw [key v]
    have h2 : FlagBroadcast = 2 ^ 1 := rfl
    have h4 : FlagMulticast = 2 ^ 4 := rfl
    rw [h2, h4, land_two_pow_eq_iff, land_two_pow_eq_iff]
  · rw [key]
    right
    rw [Nat.testBit_lor, testBit_FlagMulticast]
    simp

/-- Witness for C8: a broadcast-only value is a cast, `FlagUp` is not. -/
theorem IsCast_spec_at_concrete :
    IsCast (FlagBroadcast : Flags) = true ∧ IsCast FlagUp = false :=
  ⟨(IsCast_spec FlagBroadcast).1.mpr (Or.inl (by decide)),
   (IsCast_spec 0).2.1⟩

/-- C9: `TurnDown` and `SetBroadcast` are idempotent and commute. -/
theorem flags_ops_idem_comm (v : Flags) :
    TurnDown (TurnDown v) = TurnDown v ∧
      SetBroadcast (SetBroadcast v) = SetBroadcast v ∧
      SetBroadcast (TurnDown v) = TurnDown (SetBroadcast v) := by
  refine ⟨?_, ?_, ?_⟩
  · apply Nat.eq_of_testBit_eq
    intro i
    simp only [TurnDown, andNot, Nat.testBit_ldiff]
    cases hv : v.testBit i <;> cases hu : FlagUp.testBit i <;> simp [hv, hu]
  · apply Nat.eq_of_testBit_eq
    intro i
    simp only [SetBroadcast, Nat.testBit_lor]
    cases hv : v.testBit i <;> cases hb : FlagBroadcast.testBit i <;>
      simp [hv, hb]
  · apply Nat.eq_of_testBit_eq
    intro i
    simp only [TurnDown, SetBroadcast, andNot, Nat.testBit_lor,
      Nat.testBit_ldiff]
    rw [testBit_FlagUp, testBit_FlagBroadcast]
    by_cases h0 : i = 0
    · subst h0
      simp
    · by_cases h1 : i = 1
      · subst h1
        simp
      · rw [decide_eq_false (by omega : ¬(0 = i)),
          decide_eq_false (by omega : ¬(1 = i))]
        simp

end BitFlags

namespace Onetable

/-- C4: whatever the outcome of `test()`, `main` performs the kill of the
spawned dynamodb process; on failure the error is logged (and on success
nothing is logged), so teardown is always attempted. -/
theorem main_always_stops (t : Except String Unit) :
    Ev.killDb ∈ mainTrace t ∧
      (∀ e, t = Except.error e → Ev.logErr e ∈ mainTrace t) ∧
      (t = Except.ok () → ∀ e, Ev.logErr e ∉ mainTrace t) := by
  cases t with
  | ok u =>
    refine ⟨?_, ?_, ?_⟩
    · simp [mainTrace, startEvents, stopEvents]
    · intro e he
      exact Except.noConfusion he
    · intro _ e
      simp [mainTrace, startEvents, stopEvents]
  | error e0 =>
    refine ⟨?_, ?_, ?_⟩
    · simp [mainTrace, startEvents, stopEvents]
    · intro e he
      injection he with h
      subst h
      simp [mainTrace, startEvents, stopEvents]
    · intro h
      exact Except.noConfusion h

/-- Witness for C4 at a concrete failing outcome. -/
theorem main_always_stops_on_boom :
    Ev.killDb ∈ mainTrace (Except.error "boom") ∧
      Ev.logErr "boom" ∈ mainTrace (Except.error "boom") :=
  ⟨(main_always_stops (Except.error "boom")).1,
   (main_always_stops (Except.error "boom")).2.1 "boom" rfl⟩

set_option maxRecDepth 40000 in
/-- C10: the batch loop submits exactly 8 `batchWrite` calls of 25 users
each, the pending batch is empty at exit, and the users written across the
calls are exactly user1 .. user200, each in exactly one call. -/
theorem batch_loop_exact :
    batchRun.1.length = 8 ∧
      batchRun.2 = [] ∧
      batchRun.1.map List.length = List.replicate 8 25 ∧
      batchRun.1.flatten = List.range' 1 200 := by decide

/-- C7: the Account model declares `id` generated as a ULID (a
time-sortable token), `name` required and unique, and `balance` a Number
with default 0. -/
theorem Account_model_decls :
    (AccountModel.lookup "id").map FieldSpec.generate = some (some "ulid") ∧
      (AccountModel.lookup "name").map (fun f => (f.required, f.unique)) =
        some (true, true) ∧
      (AccountModel.lookup "balance").map (fun f => (f.type, f.default)) =
        some ("Number", some (AttrVal.num 0)) := by decide

/-- C6 (counterexample): the User model's `email` field carries no
`unique` attribute (unlike `Account.name`), so the claim that the schema
declares email uniquely indexed fails. -/
theorem User_email_not_declared_unique :
    (UserModel.lookup "email").map FieldSpec.unique = some false ∧
      ¬ ((UserModel.lookup "email").map FieldSpec.unique = some true) := by
  decide

/-- C6 (amended): the User model declares `email` required and encrypted
(`crypt`) but without a `unique` attribute; email instead determines the
sort key of the primary index (`sk = user#\x7bemail\x7d`), addressing a user by
email within an account; `role` is enumerated over exactly admin/user and
`status` over exactly active/inactive. -/
theorem User_model_decls :
    (UserModel.lookup "email").map (fun f => (f.required, f.crypt, f.unique)) =
        some (true, true, false) ∧
      (UserModel.lookup "sk").map FieldSpec.value =
        some (some "user#$\x7bemail\x7d") ∧
      primary.sort = "sk" ∧
      (UserModel.lookup "role").map FieldSpec.enum =
        some (some ["admin", "user"]) ∧
      (UserModel.lookup "status").map FieldSpec.enum =
        some (some ["active", "inactive"]) := by decide

end Onetable
